import Mathlib

/-!
Verification of rotterdam-traffic-analyzer (src/app.py).

The application's in-repo logic: the status classifier `get_traffic_status`
(flow, occupancy → status label and color), negative-value clipping of the
predictor outputs, the day-of-week mapping table, the detector label-encoder
calls, and the rendering of the two metrics. Real-valued predictor outputs
are embedded as rationals.
-/

/- Status labels, exactly the strings assigned in `get_traffic_status`
   (src/app.py lines 58-77). The spec names the four tiers FreeFlow,
   Congested, Jammed, GridlockTotal. -/

def FreeFlow : String := "LANCAR 🟢"

def Congested : String := "PADAT MERAYAP 🟠"

def Jammed : String := "MACET 🔴"

def GridlockTotal : String := "MACET TOTAL (GRIDLOCK) ⚫"

/-- `get_traffic_status(flow, occupancy)` from src/app.py lines 53-77.
Python initializes `status = "Unknown"; color = "grey"`, then the
if/elif/else on occupancy reassigns both, then the override reassigns them
when `flow < 100 and occupancy > 20`; the successive `let sc` bindings model
the successive reassignments of the pair. -/
def get_traffic_status (flow occupancy : ℚ) : String × String :=
  let sc : String × String := ("Unknown", "grey")
  let sc :=
    if occupancy < 5 then (FreeFlow, "green")
    else if 5 ≤ occupancy ∧ occupancy ≤ 15 then (Congested, "orange")
    else (Jammed, "red")
  let sc :=
    if flow < 100 ∧ occupancy > 20 then (GridlockTotal, "black")
    else sc
  sc

/-- The spec's fixed tier → color table (spec section 4.2 rule 3). -/
def tierColor (s : String) : String :=
  if s = FreeFlow then "green"
  else if s = Congested then "orange"
  else if s = Jammed then "red"
  else if s = GridlockTotal then "black"
  else "grey"

/-- Clipping step from src/app.py lines 138-139: `max(0, value)`. -/
def clip (x : ℚ) : ℚ := max 0 x

/-- The pipeline stage from raw predictor outputs to the classifier
(src/app.py lines 134-142): clip both values, then classify. -/
def classify_pipeline (rawFlow rawOcc : ℚ) : String × String :=
  get_traffic_status (clip rawFlow) (clip rawOcc)

/- Rendering (src/app.py lines 149-150). -/

/-- Python `int()` truncation toward zero, applied to the flow value. -/
def pyInt (q : ℚ) : ℤ := if 0 ≤ q then ⌊q⌋ else -⌊-q⌋

/-- Flow metric string: `f"{int(pred_flow)} kendaraan"` (src/app.py line 149). -/
def flowMetric (q : ℚ) : String := toString (pyInt q) ++ " kendaraan"

/-- Round to the nearest integer, ties to even, as Python's float formatting
does at the rounding digit. -/
def roundHalfEven (q : ℚ) : ℤ :=
  if q - ⌊q⌋ < 1 / 2 then ⌊q⌋
  else if q - ⌊q⌋ > 1 / 2 then ⌊q⌋ + 1
  else if ⌊q⌋ % 2 = 0 then ⌊q⌋ else ⌊q⌋ + 1

/-- Two digits, left-padded with a zero. -/
def pad2 (n : ℕ) : String := if n < 10 then "0" ++ toString n else toString n

/-- Python's `f"{x:.2f}"` fixed-point formatting with two decimals. -/
def fmt2 (q : ℚ) : String :=
  let n := roundHalfEven (q * 100)
  if n < 0 then "-" ++ toString (-n / 100) ++ "." ++ pad2 ((-n) % 100).toNat
  else toString (n / 100) ++ "." ++ pad2 (n % 100).toNat

/-- Occupancy metric string: `f"{pred_occ:.2f} %"` (src/app.py line 150). -/
def occMetric (q : ℚ) : String := fmt2 q ++ " %"

/- Day-of-week mapping (src/app.py lines 99-103). -/

/-- `day_mapping` dict from src/app.py lines 99-102, as an association list
in the dict's literal order. -/
def day_mapping : List (String × ℕ) :=
  [("Senin", 0), ("Selasa", 1), ("Rabu", 2), ("Kamis", 3),
   ("Jumat", 4), ("Sabtu", 5), ("Minggu", 6)]

/-- The selectbox day options (src/app.py line 95), Monday through Sunday. -/
def day_list : List String :=
  ["Senin", "Selasa", "Rabu", "Kamis", "Jumat", "Sabtu", "Minggu"]

/-- Python `day_mapping[day_input]` lookup; `none` models a KeyError. -/
def dayToCode (d : String) : Option ℕ := day_mapping.lookup d

/- Detector encoder. -/

/-- Error signalled when a detector id is not in the known enumeration
(spec section 4.1: `UnknownDetectorError`). -/
inductive EncodeError where
  | unknownDetector
deriving DecidableEq

def detectorToCodeAux (d : String) : List String → ℕ → Except EncodeError ℕ
  | [], _ => .error .unknownDetector
  | c :: cs, i => if d = c then .ok i else detectorToCodeAux d cs (i + 1)

/-- Modelled from the spec: the detector encoder itself (the sklearn
LabelEncoder loaded from models/label_encoder_detid.pkl and invoked as
`le_det.transform([det_input])[0]` at src/app.py line 110) is not under
src/. Per spec section 4.1, `detectorToCode` looks the id up in the known
enumeration (the encoder's ordered class list) and fails with
`UnknownDetectorError` when the id is absent; the code returned is the id's
position in that list. -/
def detectorToCode (classes : List String) (d : String) : Except EncodeError ℕ :=
  detectorToCodeAux d classes 0

/-- Modelled from the spec: the reverse direction, looking a code back up in
the encoder's ordered class list (`le_det.classes_`, src/app.py line 45). -/
def codeToDetector (classes : List String) (i : ℕ) : Option String :=
  classes.get? i

/- Helper lemmas. -/

/-- `get_traffic_status` as a single decision tree: the override condition,
evaluated last in the source, wins over the base occupancy tiering. -/
theorem get_traffic_status_eq (flow o : ℚ) :
    get_traffic_status flow o =
      if flow < 100 ∧ o > 20 then (GridlockTotal, "black")
      else if o < 5 then (FreeFlow, "green")
      else if 5 ≤ o ∧ o ≤ 15 then (Congested, "orange")
      else (Jammed, "red") := by
  unfold get_traffic_status
  split_ifs <;> rfl

/-- C1: for every flow ≥ 100 and every occupancy o, `get_traffic_status`
returns FreeFlow iff o < 5, Congested iff 5 ≤ o ≤ 15, and Jammed iff
o > 15 (the override cannot fire when flow ≥ 100). -/
theorem c1_base_tiers (flow o : ℚ) (hf : 100 ≤ flow) :
    ((get_traffic_status flow o).1 = FreeFlow ↔ o < 5) ∧
    ((get_traffic_status flow o).1 = Congested ↔ 5 ≤ o ∧ o ≤ 15) ∧
    ((get_traffic_status flow o).1 = Jammed ↔ 15 < o) := by
  have hov : ¬ (flow < 100 ∧ o > 20) := fun h => absurd hf (not_le.mpr h.1)
  rw [get_traffic_status_eq, if_neg hov]
  by_cases h1 : o < 5
  · rw [if_pos h1]
    exact ⟨⟨fun _ => h1, fun _ => rfl⟩,
           ⟨fun h => absurd h (by decide), fun h => absurd h.1 (by linarith)⟩,
           ⟨fun h => absurd h (by decide), fun h => absurd h1 (by linarith)⟩⟩
  · rw [if_neg h1]
    by_cases h2 : 5 ≤ o ∧ o ≤ 15
    · rw [if_pos h2]
      exact ⟨⟨fun h => absurd h (by decide), fun h => absurd h h1⟩,
             ⟨fun _ => h2, fun _ => rfl⟩,
             ⟨fun h => absurd h (by decide), fun h => absurd h2.2 (by linarith)⟩⟩
    · rw [if_neg h2]
      have h5 : 5 ≤ o := not_lt.mp h1
      have h15 : 15 < o := by
        by_contra hle
        exact h2 ⟨h5, not_lt.mp hle⟩
      exact ⟨⟨fun h => absurd h (by decide), fun h => absurd h h1⟩,
             ⟨fun h => absurd h (by decide), fun h => absurd h h2⟩,
             ⟨fun _ => h15, fun _ => rfl⟩⟩

/-- C1 witness: instantiated at flow = 150, occupancy = 3. -/
theorem c1_base_tiers_witness :
    (100 : ℚ) ≤ 150 ∧
    (((get_traffic_status 150 3).1 = FreeFlow ↔ (3 : ℚ) < 5) ∧
     ((get_traffic_status 150 3).1 = Congested ↔ (5 : ℚ) ≤ 3 ∧ (3 : ℚ) ≤ 15) ∧
     ((get_traffic_status 150 3).1 = Jammed ↔ (15 : ℚ) < 3)) :=
  ⟨by norm_num, c1_base_tiers 150 3 (by norm_num)⟩

/-- C2: for every flow < 100 and occupancy > 20, `get_traffic_status`
returns GridlockTotal (with color black), overriding any base tier. -/
theorem c2_gridlock_override (flow o : ℚ) (hf : flow < 100) (ho : o > 20) :
    get_traffic_status flow o = (GridlockTotal, "black") := by
  rw [get_traffic_status_eq, if_pos ⟨hf, ho⟩]

/-- C2 witness: instantiated at flow = 50, occupancy = 25. -/
theorem c2_gridlock_override_witness :
    (50 : ℚ) < 100 ∧ (25 : ℚ) > 20 ∧
    get_traffic_status 50 25 = (GridlockTotal, "black") :=
  ⟨by norm_num, by norm_num, c2_gridlock_override 50 25 (by norm_num) (by norm_num)⟩

/-- C3: boundary behaviour: (150, 5) and (150, 15) are Congested,
(50, 20) is Jammed (the override needs occupancy strictly above 20),
and (50, 20.01) is GridlockTotal. -/
theorem c3_boundaries :
    (get_traffic_status 150 5).1 = Congested ∧
    (get_traffic_status 150 15).1 = Congested ∧
    (get_traffic_status 50 20).1 = Jammed ∧
    (get_traffic_status 50 (2001 / 100)).1 = GridlockTotal := by
  refine ⟨?_, ?_, ?_, ?_⟩ <;> rw [get_traffic_status_eq] <;> norm_num [FreeFlow, Congested, Jammed, GridlockTotal]

/-- C4: any negative predictor output is clipped to exactly 0 before
classification, and the pipeline on raw outputs (-5, -1) classifies (0, 0),
which is FreeFlow. -/
theorem c4_negative_clipping :
    (∀ x : ℚ, x < 0 → clip x = 0) ∧
    classify_pipeline (-5) (-1) = get_traffic_status 0 0 ∧
    (get_traffic_status 0 0).1 = FreeFlow := by
  refine ⟨fun x hx => max_eq_left hx.le, ?_, ?_⟩
  · decide
  · decide

/-- C4 witness: the clipping clause instantiated at x = -7. -/
theorem c4_negative_clipping_witness : clip (-7 : ℚ) = 0 :=
  c4_negative_clipping.1 (-7) (by norm_num)

/-- Rounding an integer (cast to ℚ) returns that integer. -/
theorem roundHalfEven_intCast (n : ℤ) : roundHalfEven (n : ℚ) = n := by
  unfold roundHalfEven
  rw [Int.floor_intCast, sub_self]
  norm_num

/-- The two-decimal formatting of the rational 22 is "22.00". -/
theorem fmt2_22 : fmt2 22 = "22.00" := by
  have h1 : (22 : ℚ) * 100 = ((2200 : ℤ) : ℚ) := by norm_num
  simp only [fmt2]
  rw [h1, roundHalfEven_intCast]
  decide

/-- C5 counterexample: the displayed occupancy string for a predicted
occupancy of 22 is not "22.00%"; the source formats it as
`f"{pred_occ:.2f} %"`, with a space before the percent sign. -/
theorem c5_occ_display_counterexample : occMetric 22 ≠ "22.00%" := by
  unfold occMetric
  rw [fmt2_22]
  decide

/-- C5 (amended): with predictors returning flow = 80 and occupancy = 22,
the pipeline yields status GridlockTotal with color black, displays the flow
as the integer 80 ("80 kendaraan"), and displays the occupancy as
"22.00 %" (two decimals, with a space before the percent sign). -/
theorem c5_end_to_end :
    classify_pipeline 80 22 = (GridlockTotal, "black") ∧
    pyInt 80 = 80 ∧ flowMetric 80 = "80 kendaraan" ∧
    occMetric 22 = "22.00 %" := by
  refine ⟨by decide, by decide, by decide, ?_⟩
  unfold occMetric
  rw [fmt2_22]
  rfl

/-- C6: for every input pair, the color returned by `get_traffic_status` is
the one the spec's fixed tier → color table assigns to the returned tier. -/
theorem c6_color_determined (flow o : ℚ) :
    (get_traffic_status flow o).2 = tierColor (get_traffic_status flow o).1 := by
  rw [get_traffic_status_eq]
  split_ifs <;> decide

theorem detectorToCodeAux_not_mem (d : String) (cs : List String) :
    ∀ i : ℕ, d ∉ cs → detectorToCodeAux d cs i = .error .unknownDetector := by
  induction cs with
  | nil => intro i _; rfl
  | cons c cs ih =>
    intro i h
    simp only [detectorToCodeAux]
    rw [if_neg (fun hd : d = c => h (hd ▸ List.mem_cons_self c cs))]
    exact ih (i + 1) (fun hm => h (List.mem_cons_of_mem c hm))

/-- C7: encoding a detector id absent from the known enumeration signals
UnknownDetectorError rather than returning a code (and, being a pure
function of the class list and the id, has no side effects). -/
theorem c7_unknown_detector (classes : List String) (d : String)
    (h : d ∉ classes) :
    detectorToCode classes d = .error .unknownDetector :=
  detectorToCodeAux_not_mem d classes 0 h

/-- C7 witness: "XX-99" is not among the classes ["RDM-12", "RDM-13"]. -/
theorem c7_unknown_detector_witness :
    "XX-99" ∉ ["RDM-12", "RDM-13"] ∧
    detectorToCode ["RDM-12", "RDM-13"] "XX-99" = .error .unknownDetector :=
  ⟨by decide, c7_unknown_detector ["RDM-12", "RDM-13"] "XX-99" (by decide)⟩

theorem detectorToCodeAux_mem (d : String) (cs : List String) :
    ∀ i : ℕ, d ∈ cs →
      ∃ j : ℕ, detectorToCodeAux d cs i = .ok (i + j) ∧ cs.get? j = some d := by
  induction cs with
  | nil => intro i h; exact absurd h (List.not_mem_nil d)
  | cons c cs ih =>
    intro i h
    by_cases hd : d = c
    · refine ⟨0, ?_, ?_⟩
      · simp only [detectorToCodeAux, if_pos hd, Nat.add_zero]
      · simp [hd]
    · have hm : d ∈ cs := by
        rcases List.mem_cons.mp h with h1 | h1
        · exact absurd h1 hd
        · exact h1
      obtain ⟨j, hj1, hj2⟩ := ih (i + 1) hm
      refine ⟨j + 1, ?_, ?_⟩
      · simp only [detectorToCodeAux, if_neg hd]
        rw [hj1]
        congr 1
        omega
      · simpa using hj2

/-- C8: for every detector id in the known enumeration, the code produced by
encoding it looks back up, in the encoder's ordered class list, to the same
id. -/
theorem c8_roundtrip (classes : List String) (d : String) (h : d ∈ classes) :
    ∃ i : ℕ, detectorToCode classes d = .ok i ∧
      codeToDetector classes i = some d := by
  obtain ⟨j, h1, h2⟩ := detectorToCodeAux_mem d classes 0 h
  refine ⟨j, ?_, h2⟩
  simpa using h1

/-- C8 witness: round trip for "RDM-12" in the classes ["RDM-1", "RDM-12"]. -/
theorem c8_roundtrip_witness :
    "RDM-12" ∈ ["RDM-1", "RDM-12"] ∧
    ∃ i : ℕ, detectorToCode ["RDM-1", "RDM-12"] "RDM-12" = .ok i ∧
      codeToDetector ["RDM-1", "RDM-12"] i = some "RDM-12" :=
  ⟨by decide, c8_roundtrip ["RDM-1", "RDM-12"] "RDM-12" (by decide)⟩

/-- C9: the day mapping is a fixed 7-entry table sending Monday (Senin) = 0
through Sunday (Minggu) = 6 in order, defined (without error) on all 7 day
symbols offered by the UI. -/
theorem c9_day_mapping :
    day_mapping.length = 7 ∧
    dayToCode "Senin" = some 0 ∧ dayToCode "Selasa" = some 1 ∧
    dayToCode "Rabu" = some 2 ∧ dayToCode "Kamis" = some 3 ∧
    dayToCode "Jumat" = some 4 ∧ dayToCode "Sabtu" = some 5 ∧
    dayToCode "Minggu" = some 6 ∧
    ∀ d ∈ day_list, (dayToCode d).isSome := by
  decide

/-- C10: every result of `get_traffic_status` is one of the four
status/color pairs; the initializer pair ("Unknown", "grey") is never
returned, because the occupancy if/elif/else is exhaustive. -/
theorem c10_closed_range (flow o : ℚ) :
    (get_traffic_status flow o = (FreeFlow, "green") ∨
     get_traffic_status flow o = (Congested, "orange") ∨
     get_traffic_status flow o = (Jammed, "red") ∨
     get_traffic_status flow o = (GridlockTotal, "black")) ∧
    get_traffic_status flow o ≠ ("Unknown", "grey") := by
  rw [get_traffic_status_eq]
  split_ifs with h1 h2 h3
  · exact ⟨Or.inr (Or.inr (Or.inr rfl)), by decide⟩
  · exact ⟨Or.inl rfl, by decide⟩
  · exact ⟨Or.inr (Or.inl rfl), by decide⟩
  · exact ⟨Or.inr (Or.inr (Or.inl rfl)), by decide⟩
